import Mathlib

/-!
# Verification of the irrigo irrigation-scheduling kernel

Shallow embedding of the scheduling kernel of the irrigo repository
(`planZoneSchedule` and its helpers).  JavaScript numbers are modelled by
exact rationals (`ℚ`); machine `Math.round` (round half toward +∞) is
modelled exactly; `dayjs` instants are modelled as rational numbers of
minutes since an arbitrary epoch, a weather day's `date` being the
instant of that day's midnight (so `date.hour(6).minute(0).second(0)`
is `date + 360`).  Optional fields of the TypeScript records are
`Option`s.  A separate extended-number model (`JsNum`) captures the
IEEE-754 non-finite values produced by division by zero in JavaScript,
for the safety analysis of the zero-precipitation-rate path.
-/

/- Batteries marks the rational-number operations irreducible; restore
the default reducibility inside this file so that concrete runs of the
kernel functions can be settled by `decide`. -/
attribute [local semireducible] Rat.mul Rat.add Rat.sub Rat.inv Rat.ofScientific

/-- Soil reference of a zone: available water-holding capacity (mm per
metre of root depth) and infiltration rate (mm/hr).  From `SoilType` in
the repository's models. -/
structure SoilType where
  availableWaterHoldingCapacityMmPerM : ℚ
  infiltrationRateMmPerHr : ℚ
deriving DecidableEq

/-- Grass reference of a zone: the crop coefficient Kc.  From
`GrassType` in the repository's models. -/
structure GrassType where
  cropCoefficient : ℚ
deriving DecidableEq

/-- An irrigation zone's configuration, from the repository's `Zone`
model.  The string identifier is modelled as a natural number; the
human label and geographic location are omitted (never read by the
kernel). -/
structure Zone where
  id : ℕ
  isEnabled : Option Bool
  grassType : GrassType
  soil : SoilType
  rootDepthM : ℚ
  allowableDepletionFraction : ℚ
  irrigationEfficiency : ℚ
  flowRateLPerMin : ℚ
  areaM2 : ℚ
  precipitationRateMmPerHr : Option ℚ
  currentDepletionMm : Option ℚ
deriving DecidableEq

/-- One day of weather, from the repository's `DailyWeather` model.
`date` is the instant of the day's midnight in minutes. -/
structure DailyWeather where
  date : ℚ
  sunrise : Option ℚ
  rainfallMm : Option ℚ
  evapotranspirationMmPerDay : Option ℚ
deriving DecidableEq

/-- A single run cycle: start instant (minutes) and duration in
minutes.  From the repository's `IrrigationCycle` model. -/
structure IrrigationCycle where
  startTime : ℚ
  durationMin : ℚ
deriving DecidableEq

/-- One emitted schedule entry, from the repository's
`IrrigationScheduleEntry` model. -/
structure IrrigationScheduleEntry where
  date : ℚ
  zoneId : ℕ
  cycles : List IrrigationCycle
  appliedDepthMm : ℚ
  depletionBeforeMm : ℚ
  depletionAfterMm : ℚ
deriving DecidableEq

/-- Source `clampValue`:
`clampValue(value, min, max) = Math.max(min, Math.min(max, value))`. -/
def clampValue (value lo hi : ℚ) : ℚ :=
  max lo (min hi value)

/-- JavaScript `Math.round`: round half toward positive infinity,
`⌊x + 1/2⌋`. -/
def mathRound (x : ℚ) : ℤ :=
  ⌊x + 1 / 2⌋

/-- Source `roundTo1Decimal`: `Math.round(value * 10) / 10`. -/
def roundTo1Decimal (value : ℚ) : ℚ :=
  (mathRound (value * 10) : ℚ) / 10

/-- Source `estimateSoakMinutes`: piecewise-constant soak time
in the soil infiltration rate. -/
def estimateSoakMinutes (infiltrationRateMmHr : ℚ) : ℚ :=
  if 20 ≤ infiltrationRateMmHr then 15
  else if 12 ≤ infiltrationRateMmHr then 25
  else if 8 ≤ infiltrationRateMmHr then 35
  else if 5 ≤ infiltrationRateMmHr then 45
  else 60

/-- The `for` loop of `buildCyclePlan` building `cyclesInReverse`: the
first argument is the number of remaining iterations, the last the
`totalMinutesBeforeSunrise` accumulator. -/
def buildCycleLoop (perCycleMinutes soakTimeMinutes sunrise : ℚ) :
    ℕ → ℚ → List IrrigationCycle
  | 0, _ => []
  | n + 1, totalMinutesBeforeSunrise =>
      let cycleStartOffsetMinutes := totalMinutesBeforeSunrise + perCycleMinutes
      ⟨sunrise - cycleStartOffsetMinutes, roundTo1Decimal perCycleMinutes⟩ ::
        buildCycleLoop perCycleMinutes soakTimeMinutes sunrise n
          (cycleStartOffsetMinutes + soakTimeMinutes)

/-- Source `buildCyclePlan`: split a total runtime into cycles
that end at the sunrise anchor, respecting the maximum cycle length,
with soak pauses in between; cycles are returned in chronological
order. -/
def buildCyclePlan (totalRunTimeMinutes maximumCycleMinutes sunrise soakTimeMinutes : ℚ) :
    List IrrigationCycle :=
  if totalRunTimeMinutes ≤ 0 then []
  else if maximumCycleMinutes ≤ 0 ∨ totalRunTimeMinutes ≤ maximumCycleMinutes then
    [⟨sunrise - totalRunTimeMinutes, roundTo1Decimal totalRunTimeMinutes⟩]
  else
    let numberOfCycles : ℕ := (⌈totalRunTimeMinutes / maximumCycleMinutes⌉ : ℤ).toNat
    let perCycleMinutes : ℚ := totalRunTimeMinutes / (numberOfCycles : ℚ)
    (buildCycleLoop perCycleMinutes soakTimeMinutes sunrise numberOfCycles 0).reverse

/-- Source `totalAvailableWaterMillimeters` (TAW). -/
def totalAvailableWater (zone : Zone) : ℚ :=
  zone.soil.availableWaterHoldingCapacityMmPerM * zone.rootDepthM

/-- Source `readilyAvailableWaterMillimeters` (RAW). -/
def readilyAvailableWater (zone : Zone) : ℚ :=
  zone.allowableDepletionFraction * totalAvailableWater zone

/-- Source `precipitationRateMillimetersPerHour`: the
explicit rate when supplied, else `60 * (flowRate / area)`. -/
def precipitationRate (zone : Zone) : ℚ :=
  zone.precipitationRateMmPerHr.getD (60 * (zone.flowRateLPerMin / zone.areaM2))

/-- The resolved sunrise of a weather day:
`weatherDay.sunrise ?? date.hour(6).minute(0).second(0)`. -/
def resolvedSunrise (weatherDay : DailyWeather) : ℚ :=
  weatherDay.sunrise.getD (weatherDay.date + 6 * 60)

/-- Crop evapotranspiration of a day:
`Kc * Math.max(0, ET0 ?? 0)` from the source. -/
def cropEvapotranspiration (zone : Zone) (weatherDay : DailyWeather) : ℚ :=
  zone.grassType.cropCoefficient * max 0 (weatherDay.evapotranspirationMmPerDay.getD 0)

/-- Source `effectiveRainfallMillimeters`: rainfall below the
2 mm threshold is treated as zero, otherwise 80% is effective. -/
def effectiveRainfall (rainfallMillimeters : ℚ) : ℚ :=
  if rainfallMillimeters < 2 then 0 else 0.8 * rainfallMillimeters

/-- Advance of the running depletion on one day (source lines 45-49):
`clamp(D + ETc - effectiveRain, 0, TAW)`. -/
def advanceDepletion (zone : Zone) (depletion : ℚ) (weatherDay : DailyWeather) : ℚ :=
  clampValue
    (depletion + cropEvapotranspiration zone weatherDay -
      effectiveRainfall (weatherDay.rainfallMm.getD 0))
    0 (totalAvailableWater zone)

/-- Source `grossIrrigationDepthMillimeters` at a trigger with depletion `D`:
`Math.min(D / efficiency, TAW)` (the net depth required is `D`
itself). -/
def grossIrrigationDepth (zone : Zone) (depletion : ℚ) : ℚ :=
  min (depletion / zone.irrigationEfficiency) (totalAvailableWater zone)

/-- Source `totalRunTimeMinutes` at a trigger:
`(gross / precipitationRate) * 60`. -/
def totalRunTime (zone : Zone) (depletion : ℚ) : ℚ :=
  grossIrrigationDepth zone depletion / precipitationRate zone * 60

/-- Source `maximumCycleMinutes` at a trigger: bounded by the infiltration
rate when that is positive, otherwise equal to the total runtime. -/
def maximumCycle (zone : Zone) (depletion : ℚ) : ℚ :=
  if 0 < zone.soil.infiltrationRateMmPerHr then
    zone.soil.infiltrationRateMmPerHr / precipitationRate zone * 60
  else totalRunTime zone depletion

/-- The schedule entry pushed on a trigger day (source lines 85-92),
as a function of the zone, the day, and the depletion at trigger
time. -/
def dayEntry (zone : Zone) (weatherDay : DailyWeather) (depletion : ℚ) :
    IrrigationScheduleEntry :=
  { date := weatherDay.date
    zoneId := zone.id
    cycles :=
      buildCyclePlan (totalRunTime zone depletion) (maximumCycle zone depletion)
        (resolvedSunrise weatherDay)
        (estimateSoakMinutes zone.soil.infiltrationRateMmPerHr)
    appliedDepthMm := roundTo1Decimal (grossIrrigationDepth zone depletion)
    depletionBeforeMm := roundTo1Decimal depletion
    depletionAfterMm := roundTo1Decimal 0 }

/-- The per-day loop of `planZoneSchedule` (source lines 33-104), with
the running depletion as explicit state.  On a trigger day the
depletion is reset to 0, the day's ET and rain are re-applied
(source lines 95-99), and the final clamp of line 103 is applied in
both branches. -/
def planZoneScheduleGo (zone : Zone) : ℚ → List DailyWeather → List IrrigationScheduleEntry
  | _, [] => []
  | depletion, weatherDay :: rest =>
      let advanced := advanceDepletion zone depletion weatherDay
      if readilyAvailableWater zone ≤ advanced then
        dayEntry zone weatherDay advanced ::
          planZoneScheduleGo zone
            (clampValue (advanceDepletion zone 0 weatherDay) 0 (totalAvailableWater zone)) rest
      else
        planZoneScheduleGo zone (clampValue advanced 0 (totalAvailableWater zone)) rest

/-- Source `planZoneSchedule`: short-circuit on a disabled
zone, initialise the running depletion to
`clamp(zone.currentDepletionMm ?? 0, 0, TAW)`, then iterate the
weather days. -/
def planZoneSchedule (zone : Zone) (weatherHistory : List DailyWeather) :
    List IrrigationScheduleEntry :=
  if zone.isEnabled = some false then []
  else
    planZoneScheduleGo zone
      (clampValue (zone.currentDepletionMm.getD 0) 0 (totalAvailableWater zone))
      weatherHistory

/-- Modelled from the spec: rounding "half-away-from-zero on
`value × 10`" (§ Numerical policy).  For comparison with the source's
`Math.round`-based rounding. -/
def roundHalfAwayFromZero (x : ℚ) : ℤ :=
  if 0 ≤ x then ⌊x + 1 / 2⌋ else -⌊-x + 1 / 2⌋

/-- Modelled from the spec: one-decimal rounding by half-away-from-zero
on `value × 10`. -/
def specRoundTo1Decimal (value : ℚ) : ℚ :=
  (roundHalfAwayFromZero (value * 10) : ℚ) / 10

/-- Variant of `buildCycleLoop` with the spec's half-away-from-zero rounding in
place of the source's `Math.round`-based rounding. -/
def specBuildCycleLoop (perCycleMinutes soakTimeMinutes sunrise : ℚ) :
    ℕ → ℚ → List IrrigationCycle
  | 0, _ => []
  | n + 1, totalMinutesBeforeSunrise =>
      let cycleStartOffsetMinutes := totalMinutesBeforeSunrise + perCycleMinutes
      ⟨sunrise - cycleStartOffsetMinutes, specRoundTo1Decimal perCycleMinutes⟩ ::
        specBuildCycleLoop perCycleMinutes soakTimeMinutes sunrise n
          (cycleStartOffsetMinutes + soakTimeMinutes)

/-- Variant of `buildCyclePlan` with the spec's half-away-from-zero rounding. -/
def specBuildCyclePlan (totalRunTimeMinutes maximumCycleMinutes sunrise soakTimeMinutes : ℚ) :
    List IrrigationCycle :=
  if totalRunTimeMinutes ≤ 0 then []
  else if maximumCycleMinutes ≤ 0 ∨ totalRunTimeMinutes ≤ maximumCycleMinutes then
    [⟨sunrise - totalRunTimeMinutes, specRoundTo1Decimal totalRunTimeMinutes⟩]
  else
    let numberOfCycles : ℕ := (⌈totalRunTimeMinutes / maximumCycleMinutes⌉ : ℤ).toNat
    let perCycleMinutes : ℚ := totalRunTimeMinutes / (numberOfCycles : ℚ)
    (specBuildCycleLoop perCycleMinutes soakTimeMinutes sunrise numberOfCycles 0).reverse

/-- Variant of `dayEntry` with the spec's half-away-from-zero rounding. -/
def specDayEntry (zone : Zone) (weatherDay : DailyWeather) (depletion : ℚ) :
    IrrigationScheduleEntry :=
  { date := weatherDay.date
    zoneId := zone.id
    cycles :=
      specBuildCyclePlan (totalRunTime zone depletion) (maximumCycle zone depletion)
        (resolvedSunrise weatherDay)
        (estimateSoakMinutes zone.soil.infiltrationRateMmPerHr)
    appliedDepthMm := specRoundTo1Decimal (grossIrrigationDepth zone depletion)
    depletionBeforeMm := specRoundTo1Decimal depletion
    depletionAfterMm := specRoundTo1Decimal 0 }

/-- Variant of `planZoneScheduleGo` with the spec's half-away-from-zero
rounding. -/
def specPlanZoneScheduleGo (zone : Zone) :
    ℚ → List DailyWeather → List IrrigationScheduleEntry
  | _, [] => []
  | depletion, weatherDay :: rest =>
      let advanced := advanceDepletion zone depletion weatherDay
      if readilyAvailableWater zone ≤ advanced then
        specDayEntry zone weatherDay advanced ::
          specPlanZoneScheduleGo zone
            (clampValue (advanceDepletion zone 0 weatherDay) 0 (totalAvailableWater zone)) rest
      else
        specPlanZoneScheduleGo zone (clampValue advanced 0 (totalAvailableWater zone)) rest

/-- Variant of `planZoneSchedule` with every reported quantity rounded by the
spec's half-away-from-zero rule instead of JavaScript `Math.round`. -/
def specPlanZoneSchedule (zone : Zone) (weatherHistory : List DailyWeather) :
    List IrrigationScheduleEntry :=
  if zone.isEnabled = some false then []
  else
    specPlanZoneScheduleGo zone
      (clampValue (zone.currentDepletionMm.getD 0) 0 (totalAvailableWater zone))
      weatherHistory

/-- A JavaScript IEEE-754 double restricted to the values reachable in
the kernel: an exact (rational) finite value, the two infinities, or
NaN.  Used to model the non-finite values that JavaScript division by
zero produces (`x/0 = ±Infinity` for `x ≠ 0`, `0/0 = NaN`). -/
inductive JsNum where
  | fin (q : ℚ)
  | inf
  | ninf
  | nan
deriving DecidableEq

/-- Whether a JavaScript number is finite (`Number.isFinite`). -/
def JsNum.isFinite : JsNum → Bool
  | .fin _ => true
  | _ => false

/-- JavaScript division, with the IEEE rules for zero divisors and
non-finite operands (the sign of a floating-point zero is not modelled:
literal zeros are `+0`). -/
def jsDiv : JsNum → JsNum → JsNum
  | .nan, _ => .nan
  | _, .nan => .nan
  | .fin a, .fin b =>
      if b = 0 then (if a = 0 then .nan else if 0 < a then .inf else .ninf)
      else .fin (a / b)
  | .inf, .fin b => if 0 ≤ b then .inf else .ninf
  | .ninf, .fin b => if 0 ≤ b then .ninf else .inf
  | .fin _, .inf => .fin 0
  | .fin _, .ninf => .fin 0
  | _, .inf => .nan
  | _, .ninf => .nan

/-- JavaScript multiplication on the extended numbers. -/
def jsMul : JsNum → JsNum → JsNum
  | .nan, _ => .nan
  | _, .nan => .nan
  | .fin a, .fin b => .fin (a * b)
  | .inf, .fin b => if b = 0 then .nan else if 0 < b then .inf else .ninf
  | .ninf, .fin b => if b = 0 then .nan else if 0 < b then .ninf else .inf
  | .fin a, .inf => if a = 0 then .nan else if 0 < a then .inf else .ninf
  | .fin a, .ninf => if a = 0 then .nan else if 0 < a then .ninf else .inf
  | .inf, .inf => .inf
  | .inf, .ninf => .ninf
  | .ninf, .inf => .ninf
  | .ninf, .ninf => .inf

/-- JavaScript subtraction on the extended numbers. -/
def jsSub : JsNum → JsNum → JsNum
  | .nan, _ => .nan
  | _, .nan => .nan
  | .fin a, .fin b => .fin (a - b)
  | .fin _, .inf => .ninf
  | .fin _, .ninf => .inf
  | .inf, .fin _ => .inf
  | .ninf, .fin _ => .ninf
  | .inf, .ninf => .inf
  | .ninf, .inf => .ninf
  | .inf, .inf => .nan
  | .ninf, .ninf => .nan

/-- JavaScript `<=` on the extended numbers: any comparison with NaN is
false. -/
def jsLe : JsNum → JsNum → Bool
  | .nan, _ => false
  | _, .nan => false
  | .fin a, .fin b => a ≤ b
  | .ninf, _ => true
  | _, .inf => true
  | .inf, _ => false
  | _, .ninf => false

/-- JavaScript `Math.min` on the extended numbers (NaN propagates). -/
def jsMin : JsNum → JsNum → JsNum
  | .nan, _ => .nan
  | _, .nan => .nan
  | a, b => if jsLe a b then a else b

/-- JavaScript `Math.round` on the extended numbers: half toward +∞ on
finite values, non-finite values unchanged. -/
def jsMathRound : JsNum → JsNum
  | .fin q => .fin (⌊q + 1 / 2⌋ : ℤ)
  | x => x

/-- Source `roundTo1Decimal` under JavaScript number semantics. -/
def jsRoundTo1Decimal (value : JsNum) : JsNum :=
  jsDiv (jsMathRound (jsMul value (.fin 10))) (.fin 10)

/-- A run cycle whose fields may be non-finite (a `dayjs` instant built
by subtracting `Infinity` minutes is an invalid date; it is modelled
here as the corresponding non-finite extended number). -/
structure JsCycle where
  startTime : JsNum
  durationMin : JsNum
deriving DecidableEq

/-- JavaScript addition on the extended numbers. -/
def jsAdd : JsNum → JsNum → JsNum
  | .nan, _ => .nan
  | _, .nan => .nan
  | .fin a, .fin b => .fin (a + b)
  | .fin _, .inf => .inf
  | .fin _, .ninf => .ninf
  | .inf, .fin _ => .inf
  | .ninf, .fin _ => .ninf
  | .inf, .inf => .inf
  | .ninf, .ninf => .ninf
  | .inf, .ninf => .nan
  | .ninf, .inf => .nan

/-- The cycle-building loop under JavaScript number semantics. -/
def jsBuildCycleLoopAux (perCycleMinutes soakTimeMinutes sunrise : JsNum) :
    ℕ → JsNum → List JsCycle
  | 0, _ => []
  | n + 1, totalMinutesBeforeSunrise =>
      let cycleStartOffsetMinutes := jsAdd totalMinutesBeforeSunrise perCycleMinutes
      ⟨jsSub sunrise cycleStartOffsetMinutes, jsRoundTo1Decimal perCycleMinutes⟩ ::
        jsBuildCycleLoopAux perCycleMinutes soakTimeMinutes sunrise n
          (jsAdd cycleStartOffsetMinutes soakTimeMinutes)

/-- Source `buildCyclePlan` under JavaScript number semantics.  Faithful on
every path on which the source terminates; when the cycle count
`Math.ceil(T / M)` is itself non-finite the source's `for` loop never
terminates and no output exists, which is modelled by an empty list
(that path is outside the ones analysed here). -/
def jsBuildCyclePlan (totalRunTimeMinutes maximumCycleMinutes sunrise soakTimeMinutes : JsNum) :
    List JsCycle :=
  if jsLe totalRunTimeMinutes (.fin 0) then []
  else if jsLe maximumCycleMinutes (.fin 0) ∨ jsLe totalRunTimeMinutes maximumCycleMinutes then
    [⟨jsSub sunrise totalRunTimeMinutes, jsRoundTo1Decimal totalRunTimeMinutes⟩]
  else
    match jsDiv totalRunTimeMinutes maximumCycleMinutes with
    | .fin q =>
        let numberOfCycles : ℕ := (⌈q⌉ : ℤ).toNat
        let perCycleMinutes := jsDiv totalRunTimeMinutes (.fin (numberOfCycles : ℚ))
        (jsBuildCycleLoopAux perCycleMinutes soakTimeMinutes sunrise numberOfCycles (.fin 0)).reverse
    | _ => []

/-- The irrigation-event computation of `planZoneSchedule`
(source lines 56-80) under JavaScript number semantics: given the
(finite) depletion at trigger time and the zone's finite configuration
values, compute the cycle list and the reported gross depth.  This is
where a zero precipitation rate turns into non-finite intermediate
values. -/
def jsIrrigationEvent (depletion irrigationEfficiency taw precipRate infiltrationRate
    soakTimeMinutes sunrise : ℚ) : List JsCycle × JsNum :=
  let grossIrrigationDepthMillimeters :=
    jsMin (jsDiv (.fin depletion) (.fin irrigationEfficiency)) (.fin taw)
  let totalRunTimeMinutes :=
    jsMul (jsDiv grossIrrigationDepthMillimeters (.fin precipRate)) (.fin 60)
  let maximumCycleMinutes :=
    if 0 < infiltrationRate then
      jsMul (jsDiv (.fin infiltrationRate) (.fin precipRate)) (.fin 60)
    else totalRunTimeMinutes
  (jsBuildCyclePlan totalRunTimeMinutes maximumCycleMinutes (.fin sunrise) (.fin soakTimeMinutes),
    jsRoundTo1Decimal grossIrrigationDepthMillimeters)

/-- The seed-suite default zone of the spec (scenario defaults with an
explicit 9 mm/hr precipitation rate), with initial depletion 25 mm. -/
def seedZone : Zone :=
  { id := 1
    isEnabled := some true
    grassType := { cropCoefficient := 0.85 }
    soil := { availableWaterHoldingCapacityMmPerM := 150, infiltrationRateMmPerHr := 25 }
    rootDepthM := 0.3
    allowableDepletionFraction := 0.5
    irrigationEfficiency := 0.8
    flowRateLPerMin := 15
    areaM2 := 100
    precipitationRateMmPerHr := some 9
    currentDepletionMm := some 25 }

/-- Seven days of ET = 2.0 mm/day and no rain (seed-suite scenario
"single event"); day `i` starts at minute `1440 i` and carries no
explicit sunrise. -/
def seedWeather : List DailyWeather :=
  (List.range 7).map fun i => { date := 1440 * (i : ℚ), sunrise := none, rainfallMm := some 0, evapotranspirationMmPerDay := some 2 }


/-- The single schedule entry that the kernel emits on the seed-suite
"single event" scenario: dated day 1, two 111.3-minute cycles,
33.4 mm applied, depletion 26.7 mm before and 0 after. -/
def seedEntry : IrrigationScheduleEntry :=
  { date := 0
    zoneId := 1
    cycles := [⟨245 / 2, 1113 / 10⟩, ⟨995 / 4, 1113 / 10⟩]
    appliedDepthMm := 167 / 5
    depletionBeforeMm := 267 / 10
    depletionAfterMm := 0 }

/-- A zone exercising the sunrise-overshoot boundary of the cycle
planner: all quantities are dyadic rationals (hence exact IEEE-754
doubles), the initial depletion 80.1875 mm triggers immediately, and
the single cycle duration 80.1875 min is reported as 80.2 min. -/
def overshootZone : Zone :=
  { id := 2
    isEnabled := some true
    grassType := { cropCoefficient := 1 }
    soil := { availableWaterHoldingCapacityMmPerM := 150, infiltrationRateMmPerHr := 0 }
    rootDepthM := 1
    allowableDepletionFraction := 0.5
    irrigationEfficiency := 1
    flowRateLPerMin := 15
    areaM2 := 100
    precipitationRateMmPerHr := some 60
    currentDepletionMm := some (1283 / 16) }

/-- A single calm weather day (no rain, no ET, default 06:00
sunrise). -/
def calmDay : DailyWeather :=
  { date := 0, sunrise := none, rainfallMm := none, evapotranspirationMmPerDay := none }

/-- The seed-suite default zone with an explicit precipitation rate of
0 mm/hr — a value the stated caller preconditions do not exclude (they
forbid only a negative flow rate and a zero area). -/
def zeroRateZone : Zone :=
  { id := 3
    isEnabled := some true
    grassType := { cropCoefficient := 0.85 }
    soil := { availableWaterHoldingCapacityMmPerM := 150, infiltrationRateMmPerHr := 25 }
    rootDepthM := 0.3
    allowableDepletionFraction := 0.5
    irrigationEfficiency := 0.8
    flowRateLPerMin := 15
    areaM2 := 100
    precipitationRateMmPerHr := some 0
    currentDepletionMm := some 25 }

/-- One weather day with ET = 2.0 mm and no rain. -/
def dryDay : DailyWeather :=
  { date := 0, sunrise := none, rainfallMm := some 0, evapotranspirationMmPerDay := some 2 }

/-! ## Basic facts about the numeric helpers -/

theorem mathRound_le (x : ℚ) : (mathRound x : ℚ) ≤ x + 1 / 2 :=
  Int.floor_le _

theorem lt_mathRound (x : ℚ) : x - 1 / 2 < (mathRound x : ℚ) := by
  have h := Int.sub_one_lt_floor (x + 1 / 2)
  unfold mathRound
  linarith

theorem roundTo1Decimal_le_add (q : ℚ) : roundTo1Decimal q ≤ q + 1 / 20 := by
  have h := mathRound_le (q * 10)
  unfold roundTo1Decimal
  linarith

theorem sub_lt_roundTo1Decimal (q : ℚ) : q - 1 / 20 < roundTo1Decimal q := by
  have h := lt_mathRound (q * 10)
  unfold roundTo1Decimal
  linarith

theorem roundTo1Decimal_zero : roundTo1Decimal 0 = 0 := by decide

theorem roundTo1Decimal_eq_spec (q : ℚ) (h : 0 ≤ q) :
    roundTo1Decimal q = specRoundTo1Decimal q := by
  unfold roundTo1Decimal specRoundTo1Decimal mathRound roundHalfAwayFromZero
  rw [if_pos (by positivity : (0 : ℚ) ≤ q * 10)]

theorem clampValue_nonneg (x hi : ℚ) : 0 ≤ clampValue x 0 hi :=
  le_max_left _ _

theorem clampValue_le (x hi : ℚ) (h : 0 ≤ hi) : clampValue x 0 hi ≤ hi :=
  max_le h (min_le_left _ _)

theorem advanceDepletion_nonneg (zone : Zone) (depletion : ℚ) (weatherDay : DailyWeather) :
    0 ≤ advanceDepletion zone depletion weatherDay :=
  clampValue_nonneg _ _

theorem estimateSoakMinutes_pos (infiltrationRateMmHr : ℚ) :
    0 < estimateSoakMinutes infiltrationRateMmHr := by
  unfold estimateSoakMinutes
  split <;> norm_num
  split <;> norm_num
  split <;> norm_num
  split <;> norm_num

/-! ## Characterisation of the cycle planner -/

theorem buildCycleLoop_eq_map (d K S : ℚ) (n : ℕ) : ∀ t : ℚ,
    buildCycleLoop d K S n t =
      (List.range n).map fun j =>
        ⟨S - (t + (j : ℚ) * (d + K) + d), roundTo1Decimal d⟩ := by
  induction n with
  | zero => intro t; simp [buildCycleLoop]
  | succ m ih =>
      intro t
      rw [buildCycleLoop, List.range_succ_eq_map, List.map_cons, List.map_map]
      refine congrArg₂ List.cons ?_ ?_
      · show (⟨S - (t + d), roundTo1Decimal d⟩ : IrrigationCycle) = _
        have : S - (t + d) = S - (t + ((0 : ℕ) : ℚ) * (d + K) + d) := by push_cast; ring
        rw [this]
      · rw [ih (t + d + K)]
        refine List.map_congr_left fun j _ => ?_
        show (⟨S - (t + d + K + (j : ℚ) * (d + K) + d), roundTo1Decimal d⟩ : IrrigationCycle) = _
        have : S - (t + d + K + (j : ℚ) * (d + K) + d)
            = S - (t + ((j + 1 : ℕ) : ℚ) * (d + K) + d) := by push_cast; ring
        rw [this]
        rfl

theorem buildCyclePlan_of_nonpos (T M S K : ℚ) (h : T ≤ 0) :
    buildCyclePlan T M S K = [] := by
  rw [buildCyclePlan, if_pos h]

theorem buildCyclePlan_single (T M S K : ℚ) (h1 : ¬T ≤ 0) (h2 : M ≤ 0 ∨ T ≤ M) :
    buildCyclePlan T M S K = [⟨S - T, roundTo1Decimal T⟩] := by
  rw [buildCyclePlan, if_neg h1, if_pos h2]

theorem buildCyclePlan_multi (T M S K : ℚ) (h1 : ¬T ≤ 0) (h2 : ¬(M ≤ 0 ∨ T ≤ M)) :
    buildCyclePlan T M S K =
      ((List.range (⌈T / M⌉.toNat)).map fun j =>
        ⟨S - ((j : ℚ) * (T / (⌈T / M⌉.toNat : ℚ) + K) + T / (⌈T / M⌉.toNat : ℚ)),
          roundTo1Decimal (T / (⌈T / M⌉.toNat : ℚ))⟩).reverse := by
  rw [buildCyclePlan, if_neg h1, if_neg h2]
  show (buildCycleLoop (T / (⌈T / M⌉.toNat : ℚ)) K S ⌈T / M⌉.toNat 0).reverse = _
  rw [buildCycleLoop_eq_map]
  refine congrArg List.reverse (List.map_congr_left fun j _ => ?_)
  rw [zero_add]

theorem two_le_numberOfCycles (T M : ℚ) (hM : 0 < M) (hMT : M < T) :
    2 ≤ ⌈T / M⌉.toNat := by
  have h1 : (1 : ℚ) < T / M := (one_lt_div hM).2 hMT
  have h2 : (1 : ℤ) < ⌈T / M⌉ := by
    rw [Int.lt_ceil]
    exact_mod_cast h1
  omega

theorem perCycle_pos (T M : ℚ) (hM : 0 < M) (hMT : M < T) :
    0 < T / (⌈T / M⌉.toNat : ℚ) := by
  have h2 := two_le_numberOfCycles T M hM hMT
  have hN : (0 : ℚ) < (⌈T / M⌉.toNat : ℚ) := by exact_mod_cast Nat.lt_of_lt_of_le Nat.zero_lt_two h2
  exact div_pos (lt_trans hM hMT) hN

theorem mem_buildCyclePlan_end_le (T M S K : ℚ) (hK : 0 ≤ K) (c : IrrigationCycle)
    (hc : c ∈ buildCyclePlan T M S K) :
    c.startTime + c.durationMin ≤ S + 1 / 20 := by
  by_cases h1 : T ≤ 0
  · rw [buildCyclePlan_of_nonpos T M S K h1] at hc
    simp at hc
  by_cases h2 : M ≤ 0 ∨ T ≤ M
  · rw [buildCyclePlan_single T M S K h1 h2] at hc
    simp only [List.mem_singleton] at hc
    subst hc
    have := roundTo1Decimal_le_add T
    show S - T + roundTo1Decimal T ≤ S + 1 / 20
    linarith
  · rw [buildCyclePlan_multi T M S K h1 h2] at hc
    rw [List.mem_reverse, List.mem_map] at hc
    obtain ⟨j, -, hj⟩ := hc
    subst hj
    have hT : 0 < T := lt_of_not_le h1
    have hd : 0 ≤ T / (⌈T / M⌉.toNat : ℚ) := div_nonneg hT.le (Nat.cast_nonneg _)
    have hoff : 0 ≤ (j : ℚ) * (T / (⌈T / M⌉.toNat : ℚ) + K) :=
      mul_nonneg (Nat.cast_nonneg _) (add_nonneg hd hK)
    have := roundTo1Decimal_le_add (T / (⌈T / M⌉.toNat : ℚ))
    show S - ((j : ℚ) * (T / (⌈T / M⌉.toNat : ℚ) + K) + T / (⌈T / M⌉.toNat : ℚ)) +
        roundTo1Decimal (T / (⌈T / M⌉.toNat : ℚ)) ≤ S + 1 / 20
    linarith

theorem getLast_buildCyclePlan (T M S K : ℚ) (c : IrrigationCycle)
    (h : (buildCyclePlan T M S K).getLast? = some c) :
    ∃ d0 : ℚ, c.durationMin = roundTo1Decimal d0 ∧ c.startTime + d0 = S := by
  by_cases h1 : T ≤ 0
  · rw [buildCyclePlan_of_nonpos T M S K h1] at h
    simp at h
  by_cases h2 : M ≤ 0 ∨ T ≤ M
  · rw [buildCyclePlan_single T M S K h1 h2] at h
    simp only [List.getLast?_singleton, Option.some.injEq] at h
    subst h
    exact ⟨T, rfl, by ring⟩
  · have h2' := h2
    push_neg at h2'
    rw [buildCyclePlan_multi T M S K h1 h2, List.getLast?_reverse] at h
    set N : ℕ := ⌈T / M⌉.toNat with hN
    set d : ℚ := T / (N : ℚ) with hd
    obtain ⟨m, hm⟩ : ∃ m, N = m + 1 := by
      have h2le : 2 ≤ N := hN ▸ two_le_numberOfCycles T M h2'.1 h2'.2
      exact ⟨N - 1, by omega⟩
    rw [hm, List.range_succ_eq_map, List.map_cons, List.head?_cons, Option.some.injEq] at h
    subst h
    refine ⟨d, rfl, ?_⟩
    show S - (((0 : ℕ) : ℚ) * (d + K) + d) + d = S
    push_cast
    ring

theorem chain'_buildCyclePlan (T M S K : ℚ) (hK : 0 ≤ K) :
    List.Chain' (fun a b : IrrigationCycle => a.startTime < b.startTime)
      (buildCyclePlan T M S K) := by
  by_cases h1 : T ≤ 0
  · rw [buildCyclePlan_of_nonpos T M S K h1]
    exact List.chain'_nil
  by_cases h2 : M ≤ 0 ∨ T ≤ M
  · rw [buildCyclePlan_single T M S K h1 h2]
    exact List.chain'_singleton _
  · have h2' := h2
    push_neg at h2'
    rw [buildCyclePlan_multi T M S K h1 h2, List.chain'_reverse, List.chain'_map]
    set N : ℕ := ⌈T / M⌉.toNat with hN
    set d : ℚ := T / (N : ℚ) with hd
    have hdpos : 0 < d := by
      rw [hd, hN]
      exact perCycle_pos T M h2'.1 h2'.2
    obtain ⟨m, hm⟩ : ∃ m, N = m + 1 := by
      have h2le : 2 ≤ N := hN ▸ two_le_numberOfCycles T M h2'.1 h2'.2
      exact ⟨N - 1, by omega⟩
    rw [hm, List.chain'_range_succ]
    intro i hi
    show S - (((i + 1 : ℕ) : ℚ) * (d + K) + d) < S - (((i : ℕ) : ℚ) * (d + K) + d)
    have hpos : 0 < d + K := by linarith
    have hcast : ((i : ℕ) : ℚ) < ((i + 1 : ℕ) : ℚ) := by push_cast; linarith
    have hstep := mul_lt_mul_of_pos_right hcast hpos
    linarith

/-! ## Structure of the emitted schedule -/

theorem mem_planZoneScheduleGo (zone : Zone) (e : IrrigationScheduleEntry) :
    ∀ (ws : List DailyWeather) (D : ℚ), e ∈ planZoneScheduleGo zone D ws →
      ∃ w x, w ∈ ws ∧ e = dayEntry zone w (clampValue x 0 (totalAvailableWater zone)) ∧
        readilyAvailableWater zone ≤ clampValue x 0 (totalAvailableWater zone) := by
  intro ws
  induction ws with
  | nil => intro D h; simp [planZoneScheduleGo] at h
  | cons w rest ih =>
      intro D h
      rw [planZoneScheduleGo] at h
      by_cases htrig : readilyAvailableWater zone ≤ advanceDepletion zone D w
      · rw [if_pos htrig] at h
        rcases List.mem_cons.1 h with he | he
        · exact ⟨w, D + cropEvapotranspiration zone w -
              effectiveRainfall (w.rainfallMm.getD 0),
            List.mem_cons_self _ _, he, htrig⟩
        · obtain ⟨w', x, hw', hx, hraw⟩ := ih _ he
          exact ⟨w', x, List.mem_cons_of_mem _ hw', hx, hraw⟩
      · rw [if_neg htrig] at h
        obtain ⟨w', x, hw', hx, hraw⟩ := ih _ h
        exact ⟨w', x, List.mem_cons_of_mem _ hw', hx, hraw⟩

theorem mem_planZoneSchedule (zone : Zone) (ws : List DailyWeather)
    (e : IrrigationScheduleEntry) (h : e ∈ planZoneSchedule zone ws) :
    ∃ w x, w ∈ ws ∧ e = dayEntry zone w (clampValue x 0 (totalAvailableWater zone)) ∧
      readilyAvailableWater zone ≤ clampValue x 0 (totalAvailableWater zone) := by
  rw [planZoneSchedule] at h
  by_cases hen : zone.isEnabled = some false
  · rw [if_pos hen] at h
    simp at h
  · rw [if_neg hen] at h
    exact mem_planZoneScheduleGo zone e ws _ h

/-! ## The source rounding agrees with the spec rounding on the
reachable (non-negative) arguments -/

theorem specBuildCycleLoop_eq (d K S : ℚ) (hd : 0 ≤ d) (n : ℕ) : ∀ t : ℚ,
    specBuildCycleLoop d K S n t = buildCycleLoop d K S n t := by
  induction n with
  | zero => intro t; rfl
  | succ m ih =>
      intro t
      rw [specBuildCycleLoop, buildCycleLoop, ih, roundTo1Decimal_eq_spec d hd]

theorem specBuildCyclePlan_eq (T M S K : ℚ) :
    specBuildCyclePlan T M S K = buildCyclePlan T M S K := by
  by_cases h1 : T ≤ 0
  · rw [buildCyclePlan_of_nonpos T M S K h1, specBuildCyclePlan, if_pos h1]
  have hT : 0 ≤ T := (lt_of_not_le h1).le
  by_cases h2 : M ≤ 0 ∨ T ≤ M
  · rw [buildCyclePlan_single T M S K h1 h2, specBuildCyclePlan, if_neg h1, if_pos h2,
      roundTo1Decimal_eq_spec T hT]
  · rw [buildCyclePlan, if_neg h1, if_neg h2, specBuildCyclePlan, if_neg h1, if_neg h2]
    show (specBuildCycleLoop (T / (⌈T / M⌉.toNat : ℚ)) K S ⌈T / M⌉.toNat 0).reverse
        = (buildCycleLoop (T / (⌈T / M⌉.toNat : ℚ)) K S ⌈T / M⌉.toNat 0).reverse
    rw [specBuildCycleLoop_eq _ K S (div_nonneg hT (Nat.cast_nonneg _))]

theorem specDayEntry_eq (zone : Zone) (weatherDay : DailyWeather) (depletion : ℚ)
    (hEff : 0 < zone.irrigationEfficiency) (hTAW : 0 ≤ totalAvailableWater zone)
    (hD : 0 ≤ depletion) :
    specDayEntry zone weatherDay depletion = dayEntry zone weatherDay depletion := by
  have hgross : 0 ≤ grossIrrigationDepth zone depletion :=
    le_min (div_nonneg hD hEff.le) hTAW
  rw [specDayEntry, dayEntry, specBuildCyclePlan_eq,
    roundTo1Decimal_eq_spec _ hgross, roundTo1Decimal_eq_spec _ hD,
    roundTo1Decimal_eq_spec 0 le_rfl]

theorem specPlanZoneScheduleGo_eq (zone : Zone)
    (hEff : 0 < zone.irrigationEfficiency) (hTAW : 0 ≤ totalAvailableWater zone) :
    ∀ (ws : List DailyWeather) (D : ℚ),
      specPlanZoneScheduleGo zone D ws = planZoneScheduleGo zone D ws := by
  intro ws
  induction ws with
  | nil => intro D; rfl
  | cons w rest ih =>
      intro D
      rw [specPlanZoneScheduleGo, planZoneScheduleGo]
      by_cases htrig : readilyAvailableWater zone ≤ advanceDepletion zone D w
      · rw [if_pos htrig, if_pos htrig, ih,
          specDayEntry_eq zone w _ hEff hTAW (advanceDepletion_nonneg zone D w)]
      · rw [if_neg htrig, if_neg htrig, ih]

theorem specPlanZoneSchedule_eq (zone : Zone) (ws : List DailyWeather)
    (hEff : 0 < zone.irrigationEfficiency) (hTAW : 0 ≤ totalAvailableWater zone) :
    specPlanZoneSchedule zone ws = planZoneSchedule zone ws := by
  rw [specPlanZoneSchedule, planZoneSchedule]
  by_cases hen : zone.isEnabled = some false
  · rw [if_pos hen, if_pos hen]
  · rw [if_neg hen, if_neg hen, specPlanZoneScheduleGo_eq zone hEff hTAW]

/-! ## The claims -/

/-- C1: for every total runtime `T`, maximum cycle `M`, sunrise anchor
`S` and soak interval `K ≥ 0`, the cycle planner returns an empty list
when `T ≤ 0`; a single cycle of duration `T` (reported one-decimal
rounded) starting at `S − T` when `M ≤ 0` or `T ≤ M`; and otherwise
exactly `N = ⌈T/M⌉` cycles in chronological order, each of exact
duration `d = T/N` reported one-decimal rounded, where, counting from
the latest (`j = i − 1 = 0`), cycle `i` ends by exact offsets at
`S − (i−1)(d+K)` and starts `d` minutes before that. -/
theorem C1_cycle_planner (T M S K : ℚ) (hK : 0 ≤ K) :
    (T ≤ 0 → buildCyclePlan T M S K = [])
    ∧ (0 < T → (M ≤ 0 ∨ T ≤ M) →
        buildCyclePlan T M S K = [⟨S - T, roundTo1Decimal T⟩])
    ∧ (0 < M → M < T →
        ((⌈T / M⌉.toNat : ℤ) = ⌈T / M⌉
          ∧ (buildCyclePlan T M S K).length = ⌈T / M⌉.toNat
          ∧ buildCyclePlan T M S K =
              ((List.range ⌈T / M⌉.toNat).map fun j =>
                ⟨S - ((j : ℚ) * (T / (⌈T / M⌉.toNat : ℚ) + K) + T / (⌈T / M⌉.toNat : ℚ)),
                  roundTo1Decimal (T / (⌈T / M⌉.toNat : ℚ))⟩).reverse))
    ∧ List.Chain' (fun a b : IrrigationCycle => a.startTime < b.startTime)
        (buildCyclePlan T M S K) := by
  refine ⟨buildCyclePlan_of_nonpos T M S K, ?_, ?_, chain'_buildCyclePlan T M S K hK⟩
  · intro hT h2
    exact buildCyclePlan_single T M S K (not_le.2 hT) h2
  · intro hM hMT
    have h1 : ¬T ≤ 0 := not_le.2 (lt_trans hM hMT)
    have h2 : ¬(M ≤ 0 ∨ T ≤ M) := by push_neg; exact ⟨hM, hMT⟩
    have hceil : (0 : ℤ) ≤ ⌈T / M⌉ :=
      (Int.ceil_pos.2 (div_pos (lt_trans hM hMT) hM)).le
    refine ⟨Int.toNat_of_nonneg hceil, ?_, buildCyclePlan_multi T M S K h1 h2⟩
    rw [buildCyclePlan_multi T M S K h1 h2]
    simp

/-- Witness for C1 at concrete inputs: a non-positive runtime, a
runtime below the maximum cycle, and a 10-minute runtime split over a
4-minute maximum cycle with 15-minute soaks. -/
theorem C1_cycle_planner_witness :
    buildCyclePlan (-5) 8 360 15 = []
    ∧ buildCyclePlan 5 8 360 15 = [⟨355, roundTo1Decimal 5⟩]
    ∧ (buildCyclePlan 10 4 360 15).length = 3
    ∧ List.Chain' (fun a b : IrrigationCycle => a.startTime < b.startTime)
        (buildCyclePlan 10 4 360 15) := by
  refine ⟨(C1_cycle_planner (-5) 8 360 15 (by norm_num)).1 (by norm_num),
    (C1_cycle_planner 5 8 360 15 (by norm_num)).2.1 (by norm_num) (Or.inr (by norm_num)),
    ?_, (C1_cycle_planner 10 4 360 15 (by norm_num)).2.2.2⟩
  have h := ((C1_cycle_planner 10 4 360 15 (by norm_num)).2.2.1 (by norm_num)
    (by norm_num)).2.1
  rw [h]
  decide

/-- C2 (amended): for every emitted entry `e` there is a weather day
`w` of the input with `e.date = w.date` such that every cycle of `e`
ends, using the reported one-decimal duration, no later than the
resolved sunrise of `w` plus 0.05 min (the one-decimal rounding
resolution), and the latest cycle's reported duration is the rounding
of an exact duration with which it ends exactly at that sunrise.  The
original claim (no later than sunrise itself, using the reported
duration) fails: rounding a duration up by as much as 0.05 min pushes
the reported end past sunrise. -/
theorem C2_cycles_end_near_sunrise (zone : Zone) (ws : List DailyWeather)
    (e : IrrigationScheduleEntry) (he : e ∈ planZoneSchedule zone ws) :
    ∃ w, w ∈ ws ∧ e.date = w.date
      ∧ (∀ c ∈ e.cycles, c.startTime + c.durationMin ≤ resolvedSunrise w + 1 / 20)
      ∧ (∀ c, e.cycles.getLast? = some c →
          ∃ d0, c.durationMin = roundTo1Decimal d0 ∧ c.startTime + d0 = resolvedSunrise w) := by
  obtain ⟨w, x, hw, he', -⟩ := mem_planZoneSchedule zone ws e he
  subst he'
  refine ⟨w, hw, rfl, ?_, ?_⟩
  · intro c hc
    exact mem_buildCyclePlan_end_le _ _ _ _
      (estimateSoakMinutes_pos zone.soil.infiltrationRateMmPerHr).le c hc
  · intro c hc
    exact getLast_buildCyclePlan _ _ _ _ c hc

/-- Witness for C2 (amended) at the seed-suite single-event run. -/
theorem C2_cycles_end_near_sunrise_witness :
    ∃ w, w ∈ seedWeather ∧ seedEntry.date = w.date
      ∧ (∀ c ∈ seedEntry.cycles, c.startTime + c.durationMin ≤ resolvedSunrise w + 1 / 20)
      ∧ (∀ c, seedEntry.cycles.getLast? = some c →
          ∃ d0, c.durationMin = roundTo1Decimal d0 ∧ c.startTime + d0 = resolvedSunrise w) :=
  C2_cycles_end_near_sunrise seedZone seedWeather seedEntry (by decide)

/-- Counterexample to C2 as stated: on `overshootZone` (all quantities
exact binary doubles) the single emitted cycle has exact duration
80.1875 min, reported 80.2 min, so its reported end exceeds the 06:00
sunrise by 0.0125 min. -/
theorem C2_counterexample :
    ¬ ∀ e ∈ planZoneSchedule overshootZone [calmDay], ∀ c ∈ e.cycles,
        c.startTime + c.durationMin ≤ resolvedSunrise calmDay := by
  decide

/-- C3: on each weather day, after advancing the running depletion by
crop ET minus effective rainfall and clamping to `[0, TAW]`, an entry
is emitted for that day iff the advanced depletion reaches RAW — the
comparison is `≥`, so exactly-RAW triggers and strictly-below does
not. -/
theorem C3_trigger_threshold (zone : Zone) (D : ℚ) (w : DailyWeather)
    (rest : List DailyWeather) :
    (readilyAvailableWater zone ≤ advanceDepletion zone D w →
      planZoneScheduleGo zone D (w :: rest)
        = dayEntry zone w (advanceDepletion zone D w) ::
            planZoneScheduleGo zone
              (clampValue (advanceDepletion zone 0 w) 0 (totalAvailableWater zone)) rest)
    ∧ (advanceDepletion zone D w < readilyAvailableWater zone →
      planZoneScheduleGo zone D (w :: rest)
        = planZoneScheduleGo zone
            (clampValue (advanceDepletion zone D w) 0 (totalAvailableWater zone)) rest) := by
  constructor
  · intro h
    rw [planZoneScheduleGo, if_pos h]
  · intro h
    rw [planZoneScheduleGo, if_neg (not_le.2 h)]

/-- Witness for C3: with the seed zone (RAW = 22.5) a depletion of
20.8 advances to exactly 22.5 = RAW on a 2-mm-ET day and triggers,
while a depletion of 20 advances to 21.7 < RAW and does not. -/
theorem C3_trigger_threshold_witness :
    advanceDepletion seedZone (104 / 5) dryDay = readilyAvailableWater seedZone
    ∧ planZoneScheduleGo seedZone (104 / 5) [dryDay]
        = dayEntry seedZone dryDay (advanceDepletion seedZone (104 / 5) dryDay) ::
            planZoneScheduleGo seedZone
              (clampValue (advanceDepletion seedZone 0 dryDay) 0 (totalAvailableWater seedZone)) []
    ∧ planZoneScheduleGo seedZone 20 [dryDay]
        = planZoneScheduleGo seedZone
            (clampValue (advanceDepletion seedZone 20 dryDay) 0 (totalAvailableWater seedZone)) [] :=
  ⟨by decide, (C3_trigger_threshold seedZone (104 / 5) dryDay []).1 (by decide),
    (C3_trigger_threshold seedZone 20 dryDay []).2 (by decide)⟩

/-- C4: every emitted entry reports a gross applied depth equal to
`min(D / efficiency, TAW)` (one-decimal rounded) where `D` is the
depletion at trigger time, that gross depth never exceeds one TAW, and
the entry's depletion-after is reported as 0 even when the cap makes
the application insufficient. -/
theorem C4_gross_depth_cap (zone : Zone) (ws : List DailyWeather)
    (e : IrrigationScheduleEntry) (he : e ∈ planZoneSchedule zone ws) :
    ∃ D1, e.depletionBeforeMm = roundTo1Decimal D1
      ∧ e.appliedDepthMm = roundTo1Decimal (grossIrrigationDepth zone D1)
      ∧ grossIrrigationDepth zone D1
          = min (D1 / zone.irrigationEfficiency) (totalAvailableWater zone)
      ∧ grossIrrigationDepth zone D1 ≤ totalAvailableWater zone
      ∧ e.depletionAfterMm = 0 := by
  obtain ⟨w, x, -, he', -⟩ := mem_planZoneSchedule zone ws e he
  subst he'
  exact ⟨clampValue x 0 (totalAvailableWater zone), rfl, rfl, rfl, min_le_right _ _,
    roundTo1Decimal_zero⟩

/-- Witness for C4 at the seed-suite single-event run. -/
theorem C4_gross_depth_cap_witness :
    ∃ D1, seedEntry.depletionBeforeMm = roundTo1Decimal D1
      ∧ seedEntry.appliedDepthMm = roundTo1Decimal (grossIrrigationDepth seedZone D1)
      ∧ grossIrrigationDepth seedZone D1
          = min (D1 / seedZone.irrigationEfficiency) (totalAvailableWater seedZone)
      ∧ grossIrrigationDepth seedZone D1 ≤ totalAvailableWater seedZone
      ∧ seedEntry.depletionAfterMm = 0 :=
  C4_gross_depth_cap seedZone seedWeather seedEntry (by decide)

/-- C5: the effective rainfall used to advance depletion is 0 below
the 2 mm threshold and 0.8 × rainfall at or above it; in particular
1.99 mm contributes 0 and 2.00 mm contributes 1.60 mm. -/
theorem C5_effective_rainfall :
    (∀ r : ℚ, r < 2 → effectiveRainfall r = 0)
    ∧ (∀ r : ℚ, 2 ≤ r → effectiveRainfall r = 0.8 * r)
    ∧ effectiveRainfall (199 / 100) = 0
    ∧ effectiveRainfall 2 = 8 / 5
    ∧ ∀ (zone : Zone) (D : ℚ) (w : DailyWeather),
        advanceDepletion zone D w
          = clampValue
              (D + cropEvapotranspiration zone w - effectiveRainfall (w.rainfallMm.getD 0))
              0 (totalAvailableWater zone) :=
  ⟨fun _ h => if_pos h, fun _ h => if_neg (not_lt.2 h), by decide, by decide,
    fun _ _ _ => rfl⟩

/-- Witness for C5 on either side of the threshold. -/
theorem C5_effective_rainfall_witness :
    effectiveRainfall 1 = 0 ∧ effectiveRainfall 3 = 0.8 * 3 :=
  ⟨C5_effective_rainfall.1 1 (by norm_num), C5_effective_rainfall.2.1 3 (by norm_num)⟩

/-- C6: the running depletion is initialised to
`clamp(currentDepletion ?? 0, 0, TAW)` — silently clamping out-of-range
initial values into `[0, TAW]` — and for every emitted entry the
unrounded depletion-before lies in `[0, TAW]` while the
depletion-after is 0 before (and after) rounding. -/
theorem C6_depletion_invariant (zone : Zone) (ws : List DailyWeather)
    (hTAW : 0 ≤ totalAvailableWater zone) :
    (0 ≤ clampValue (zone.currentDepletionMm.getD 0) 0 (totalAvailableWater zone)
      ∧ clampValue (zone.currentDepletionMm.getD 0) 0 (totalAvailableWater zone)
          ≤ totalAvailableWater zone)
    ∧ (¬zone.isEnabled = some false →
        planZoneSchedule zone ws
          = planZoneScheduleGo zone
              (clampValue (zone.currentDepletionMm.getD 0) 0 (totalAvailableWater zone)) ws)
    ∧ ∀ e ∈ planZoneSchedule zone ws, ∃ D1,
        0 ≤ D1 ∧ D1 ≤ totalAvailableWater zone
        ∧ e.depletionBeforeMm = roundTo1Decimal D1
        ∧ e.depletionAfterMm = roundTo1Decimal 0 ∧ roundTo1Decimal 0 = 0 := by
  refine ⟨⟨clampValue_nonneg _ _, clampValue_le _ _ hTAW⟩, ?_, ?_⟩
  · intro hen
    rw [planZoneSchedule, if_neg hen]
  · intro e he
    obtain ⟨w, x, -, he', -⟩ := mem_planZoneSchedule zone ws e he
    subst he'
    exact ⟨clampValue x 0 (totalAvailableWater zone), clampValue_nonneg _ _,
      clampValue_le _ _ hTAW, rfl, rfl, roundTo1Decimal_zero⟩

/-- Witness for C6 at the seed-suite single-event run. -/
theorem C6_depletion_invariant_witness :
    ∃ D1, 0 ≤ D1 ∧ D1 ≤ totalAvailableWater seedZone
      ∧ seedEntry.depletionBeforeMm = roundTo1Decimal D1
      ∧ seedEntry.depletionAfterMm = roundTo1Decimal 0 ∧ roundTo1Decimal 0 = 0 :=
  (C6_depletion_invariant seedZone seedWeather (by decide)).2.2 seedEntry (by decide)

/-- C7: on the seed-suite defaults (Kc 0.85, AWHC 150 mm/m,
infiltration 25 mm/hr, root depth 0.3 m, ADF 0.5, efficiency 0.8,
explicit precipitation rate 9 mm/hr), initial depletion 25 mm and 7 dry
days of ET 2.0 mm/day, the kernel emits exactly one entry, dated the
first day, with depletion-before 26.7 mm and applied depth 33.4 mm. -/
theorem C7_seed_single_event :
    planZoneSchedule seedZone seedWeather = [seedEntry]
    ∧ (seedWeather.head?.map DailyWeather.date) = some seedEntry.date
    ∧ seedEntry.depletionBeforeMm = 267 / 10
    ∧ seedEntry.appliedDepthMm = 167 / 5 := by
  decide

/-- C8: for zones with positive efficiency and non-negative TAW (the
spec's validity preconditions) the schedule is unchanged when the
source's `Math.round`-based one-decimal rounding is replaced by the
spec's half-away-from-zero rounding — every reported output quantity
is rounded half-away-from-zero on `value × 10`; indeed the two
roundings agree on all non-negative arguments. -/
theorem C8_half_away_rounding (zone : Zone) (ws : List DailyWeather)
    (hEff : 0 < zone.irrigationEfficiency) (hTAW : 0 ≤ totalAvailableWater zone) :
    planZoneSchedule zone ws = specPlanZoneSchedule zone ws
    ∧ ∀ q : ℚ, 0 ≤ q → roundTo1Decimal q = specRoundTo1Decimal q :=
  ⟨(specPlanZoneSchedule_eq zone ws hEff hTAW).symm, fun q h => roundTo1Decimal_eq_spec q h⟩

/-- Witness for C8 at the seed-suite single-event run. -/
theorem C8_half_away_rounding_witness :
    planZoneSchedule seedZone seedWeather = specPlanZoneSchedule seedZone seedWeather
    ∧ roundTo1Decimal 0 = specRoundTo1Decimal 0 :=
  ⟨(C8_half_away_rounding seedZone seedWeather (by decide) (by decide)).1,
    (C8_half_away_rounding seedZone seedWeather (by decide) (by decide)).2 0 le_rfl⟩

/-- C9: with an explicit precipitation rate of 0 mm/hr — a value the
stated caller preconditions do not exclude — the triggered event
divides by the precipitation rate.  In the exact-rational model
(division by zero yields 0) the emitted entry carries an empty cycle
list despite a positive applied depth; under JavaScript IEEE-754
semantics the same computation yields a total runtime of `+Infinity`
and the emitted single cycle has `durationMin = Infinity` (and an
invalid start instant), a non-finite value in the output — contradicting
the requirement that no nonsense values are silently produced. -/
theorem C9_zero_precipitation_nonfinite :
    precipitationRate zeroRateZone = 0
    ∧ advanceDepletion zeroRateZone
        (clampValue (zeroRateZone.currentDepletionMm.getD 0) 0 (totalAvailableWater zeroRateZone))
        dryDay = 267 / 10
    ∧ planZoneSchedule zeroRateZone [dryDay]
        = [{ date := 0, zoneId := 3, cycles := [], appliedDepthMm := 167 / 5,
             depletionBeforeMm := 267 / 10, depletionAfterMm := 0 }]
    ∧ (jsIrrigationEvent (267 / 10) 0.8 45 0 25 15 360).1 = [⟨.ninf, .inf⟩]
    ∧ ((jsIrrigationEvent (267 / 10) 0.8 45 0 25 15 360).1.all
        fun c => c.durationMin.isFinite) = false := by
  decide

/-- C10 (implicit invariant): for every emitted entry the unrounded
depletion-before is at least RAW, so the reported one-decimal value is
at least RAW − 0.05. -/
theorem C10_before_at_least_raw (zone : Zone) (ws : List DailyWeather)
    (e : IrrigationScheduleEntry) (he : e ∈ planZoneSchedule zone ws) :
    ∃ D1, e.depletionBeforeMm = roundTo1Decimal D1
      ∧ readilyAvailableWater zone ≤ D1
      ∧ readilyAvailableWater zone - 1 / 20 ≤ e.depletionBeforeMm := by
  obtain ⟨w, x, -, he', hraw⟩ := mem_planZoneSchedule zone ws e he
  subst he'
  refine ⟨clampValue x 0 (totalAvailableWater zone), rfl, hraw, ?_⟩
  have h := sub_lt_roundTo1Decimal (clampValue x 0 (totalAvailableWater zone))
  show readilyAvailableWater zone - 1 / 20
      ≤ roundTo1Decimal (clampValue x 0 (totalAvailableWater zone))
  linarith

/-- Witness for C10 at the seed-suite single-event run. -/
theorem C10_before_at_least_raw_witness :
    ∃ D1, seedEntry.depletionBeforeMm = roundTo1Decimal D1
      ∧ readilyAvailableWater seedZone ≤ D1
      ∧ readilyAvailableWater seedZone - 1 / 20 ≤ seedEntry.depletionBeforeMm :=
  C10_before_at_least_raw seedZone seedWeather seedEntry (by decide)
